import Mathlib

/-!
Shallow embedding of `ups_cache.py`, a single-file UPS monitoring script.

Modelling conventions:
* Python `float` values are modelled as rationals (`ℚ`); the numeric literals
  of the source are taken at their decimal value.  Python `int` is `ℤ`.
* `float(s)` / `int(s)` string conversion is modelled by `pyFloat` / `pyInt`,
  covering signed finite decimal literals (optional fraction and exponent);
  `inf`/`nan` spellings, underscores between digits and non-ASCII digits are
  outside the model.
* Exceptions never escape the translated functions: fallible operations return
  `Option`, and `try/except` blocks are translated by matching on the modelled
  outcome of each fallible step.
* Dictionaries with a fixed key set (the metric snapshot) become a structure;
  the conditionally-present status-flag keys become an explicit association
  list (`status_flags`), empty exactly when the Python dict lacks those keys.
* The cache file, current clock and serial/subprocess environment are explicit
  parameters (a `FileState`, a time `ℚ`, a query result, a `ProcOutcome`).
-/

set_option maxRecDepth 4000

/-- Characters treated as whitespace by Python `str.split()` (ASCII subset). -/
def isPySpace (c : Char) : Bool :=
  c = ' ' || c = '\t' || c = '\n' || c = '\r' || c = '\x0b' || c = '\x0c'

/-- Helper for `pySplit`: accumulates the current token (reversed) and cuts at
whitespace runs, as Python `str.split()` with no separator does. -/
def splitWSAux : List Char → List Char → List (List Char)
  | acc, [] => if acc.isEmpty then [] else [acc.reverse]
  | acc, c :: cs =>
    if isPySpace c then
      if acc.isEmpty then splitWSAux [] cs else acc.reverse :: splitWSAux [] cs
    else splitWSAux (c :: acc) cs

/-- Python `s.split()` with no argument: split on runs of whitespace, no empty
tokens. -/
def pySplit (s : String) : List String :=
  (splitWSAux [] s.toList).map String.mk

/-- Python `s.strip(chars)`: remove any characters of `cs` from both ends. -/
def stripChars (s : String) (cs : List Char) : String :=
  String.mk (((s.toList.dropWhile (cs.contains ·)).reverse.dropWhile (cs.contains ·)).reverse)

/-- ASCII decimal digit test. -/
def isAsciiDigit (c : Char) : Bool := '0' ≤ c && c ≤ '9'

/-- Value of a list of ASCII digits, most significant first (0 for `[]`). -/
def digitsVal (cs : List Char) : ℕ :=
  cs.foldl (fun a c => 10 * a + (c.toNat - 48)) 0

/-- Parse a non-empty all-digit character list to a natural number. -/
def natOfDigits (cs : List Char) : Option ℕ :=
  if cs.isEmpty then none
  else if cs.all isAsciiDigit then some (digitsVal cs) else none

/-- Strip leading and trailing whitespace, as Python `int`/`float` conversion
does before parsing. -/
def stripWS (cs : List Char) : List Char :=
  ((cs.dropWhile isPySpace).reverse.dropWhile isPySpace).reverse

/-- Optional sign followed by a non-empty digit string, as an integer. -/
def signedDigits (cs : List Char) : Option ℤ :=
  match cs with
  | '+' :: rest => (natOfDigits rest).map Int.ofNat
  | '-' :: rest => (natOfDigits rest).map (fun n => -(n : ℤ))
  | rest => (natOfDigits rest).map Int.ofNat

/-- Python `int(s)` on a string: strip whitespace, optional sign, digits;
`none` models the `ValueError` raised on anything else. -/
def pyInt (s : String) : Option ℤ :=
  signedDigits (stripWS s.toList)

/-- Split a character list at the first character satisfying `p`, keeping the
remainder (without the separator) when one is found. -/
def splitAtChar (cs : List Char) (p : Char → Bool) : List Char × Option (List Char) :=
  match cs.findIdx? p with
  | none => (cs, none)
  | some i => (cs.take i, some (cs.drop (i + 1)))

/-- Mantissa of a Python float literal: `digits`, `digits.`, `.digits` or
`digits.digits`. -/
def parseMantissa (cs : List Char) : Option ℚ :=
  match splitAtChar cs (· = '.') with
  | (ip, none) => (natOfDigits ip).map (fun n => (n : ℚ))
  | (ip, some fp) =>
    if fp.contains '.' then none
    else if ip.isEmpty && fp.isEmpty then none
    else if ip.all isAsciiDigit && fp.all isAsciiDigit then
      some ((digitsVal ip : ℚ) + (digitsVal fp : ℚ) / ((10 : ℚ) ^ fp.length))
    else none

/-- Unsigned part of a Python float literal, optionally with an `e`/`E`
exponent. -/
def pyFloatMag (cs : List Char) : Option ℚ :=
  match splitAtChar cs (fun c => c = 'e' || c = 'E') with
  | (m, none) => parseMantissa m
  | (m, some e) =>
    match parseMantissa m, signedDigits e with
    | some q, some z => some (q * (10 : ℚ) ^ z)
    | _, _ => none

/-- Python `float(s)` on a string (finite decimal literals); `none` models the
`ValueError` raised on anything else. -/
def pyFloat (s : String) : Option ℚ :=
  match stripWS s.toList with
  | '+' :: rest => pyFloatMag rest
  | '-' :: rest => (pyFloatMag rest).map Neg.neg
  | rest => pyFloatMag rest

/-- Python `int(x)` on a number: truncation toward zero. -/
def pyTrunc (q : ℚ) : ℤ :=
  if 0 ≤ q then ⌊q⌋ else -⌊-q⌋

/-- Round to nearest integer, ties to even — the rounding used by Python
`round` (modelled on the decimal value). -/
def roundHalfEven (q : ℚ) : ℤ :=
  let n := ⌊q⌋
  let r := q - (n : ℚ)
  if r < 1 / 2 then n
  else if 1 / 2 < r then n + 1
  else if n % 2 = 0 then n else n + 1

/-- Python `round(x, 2)`: round to 2 decimal places. -/
def round2 (q : ℚ) : ℚ :=
  (roundHalfEven (q * 100) : ℚ) / 100

/-- Configuration constant `BATTERY_HIGH = 208.00` of `ups_cache.py`. -/
def BATTERY_HIGH : ℚ := 208

/-- Configuration constant `BATTERY_LOW = 166.40` of `ups_cache.py`. -/
def BATTERY_LOW : ℚ := 1664 / 10

/-- Configuration constant `CACHE_TTL = 120` seconds of `ups_cache.py`. -/
def CACHE_TTL : ℚ := 120

/-- Configuration constant `ZABBIX_HOSTNAME` of `ups_cache.py`. -/
def ZABBIX_HOSTNAME : String := "UPSMonitor"

/-- The battery series multiplier literal `96.90265487` of `ups_cache.py`. -/
def battMul : ℚ := 9690265487 / 100000000

/-- The `STATUS_FLAGS` table of `ups_cache.py`: flag name to bit position, in
the dict's insertion order. -/
def STATUS_FLAGS : List (String × ℕ) :=
  [("utility_fail", 7),
   ("battery_low", 6),
   ("boost_buck_active", 5),
   ("ups_failed", 4),
   ("ups_type_standby", 3),
   ("test_in_progress", 2),
   ("shutdown_active", 1),
   ("beeper_on", 0)]

/-- The guard of `parse_status_bits`: exactly 8 characters, each `0` or `1`. -/
def validStatusToken (bits : String) : Bool :=
  bits.length == 8 && bits.toList.all (fun c => c == '0' || c == '1')

/-- Python `int(c)` for a single `0`/`1` character. -/
def charDigit (c : Char) : ℤ := (c.toNat : ℤ) - 48

/-- Translation of `parse_status_bits(bits)`: on a valid 8-character binary
string, each flag name maps to `int(bits[7 - pos])` (indexing from the end);
otherwise the empty dict, here the empty association list. -/
def parse_status_bits (bits : String) : List (String × ℤ) :=
  if validStatusToken bits then
    STATUS_FLAGS.map (fun np => (np.1, charDigit (bits.toList.getD (7 - np.2) '0')))
  else []

/-- The metric snapshot dict built by `parse_ups_response`: nine fixed keys in
the dict-literal order, then the splatted status flags (`status_flags` is the
association list of those conditionally-present keys). -/
structure MetricSnapshot where
  input_voltage : ℚ
  input_fault_voltage : ℚ
  output_voltage : ℚ
  output_current_percent : ℤ
  input_frequency : ℚ
  battery_voltage : ℚ
  battery_voltage_all : ℚ
  temperature : ℚ
  battery_charge : ℤ
  status_flags : List (String × ℤ)
deriving DecidableEq, Repr

/-- The battery-charge expression of `parse_ups_response`, as a function of
the parsed per-cell battery voltage:
`int(max(0, min(100, ((bv * 96.90265487 - BATTERY_LOW) / (BATTERY_HIGH - BATTERY_LOW)) * 100)))`. -/
def battery_charge_of (bv : ℚ) : ℤ :=
  pyTrunc (max 0 (min 100 ((bv * battMul - BATTERY_LOW) / (BATTERY_HIGH - BATTERY_LOW) * 100)))

/-- The characters stripped by `response.strip("()\r\n")`. -/
def parenStripSet : List Char := ['(', ')', '\r', '\n']

/-- Python `response.startswith("(")`: the first character is `(`. -/
def startsWithParen (s : String) : Bool :=
  match s.toList with
  | c :: _ => c = '('
  | [] => false

/-- Translation of `parse_ups_response(response)`.  Returns `none` when the
line does not start with `(`, when stripping and splitting does not give
exactly 8 tokens, or when one of the seven numeric conversions raises
(`float` for parts 0,1,2,4,5,6 and `int` for part 3); the `try/except` of the
source means every such failure surfaces as `None` and never as an
exception. -/
def parse_ups_response (response : String) : Option MetricSnapshot :=
  if startsWithParen response then
    match pySplit (stripChars response parenStripSet) with
    | [p0, p1, p2, p3, p4, p5, p6, p7] =>
      match pyFloat p0, pyFloat p1, pyFloat p2, pyInt p3, pyFloat p4, pyFloat p5, pyFloat p6 with
      | some iv, some ifv, some ov, some oc, some ifr, some bv, some temp =>
        some
          { input_voltage := iv
            input_fault_voltage := ifv
            output_voltage := ov
            output_current_percent := oc
            input_frequency := ifr
            battery_voltage := bv
            battery_voltage_all := round2 (bv * battMul)
            temperature := temp
            battery_charge := battery_charge_of bv
            status_flags := parse_status_bits p7 }
      | _, _, _, _, _, _, _ => none
    | _ => none
  else none

/-- Observable state of the cache file `/tmp/ups_cache.json`.  `absent` is a
missing file, `unreadable` a file whose `open` raises, `malformed` a file
whose JSON decoding or `timestamp`/`values` access raises, and `entry` a
well-formed `{"timestamp": ts, "values": v}` payload. -/
inductive FileState where
  | absent
  | unreadable
  | malformed
  | entry (timestamp : ℚ) (values : MetricSnapshot)
deriving DecidableEq, Repr

/-- Translation of `read_from_cache()`: `None` on a missing, unreadable or
malformed file; on a well-formed entry, the stored values exactly when
`now - timestamp < CACHE_TTL`, else `None`.  `now` models `time.time()`. -/
def read_from_cache (fs : FileState) (now : ℚ) : Option MetricSnapshot :=
  match fs with
  | .absent => none
  | .unreadable => none
  | .malformed => none
  | .entry ts v => if now - ts < CACHE_TTL then some v else none

/-- Translation of `write_to_cache(values)` along its successful path: the
cache file now holds `{"timestamp": now, "values": values}` (an I/O failure is
swallowed by the source and would leave the file unchanged; the claims below
concern the performed write). -/
def write_to_cache (now : ℚ) (values : MetricSnapshot) : FileState :=
  .entry now values

/-- Translation of `get_ups_data()`: serve the cache when fresh, otherwise
fall back to the query result, writing it to the cache on success.  `qr`
models the value returned by `query_ups()` (the snapshot parsed from the
serial reply, or `None` on any transport or parse failure).  The source tests
`if cached:` by dict truthiness, which coincides with `is not None` because a
parsed snapshot always has its nine fixed keys.  Returns the data and the
resulting cache-file state. -/
def get_ups_data (fs : FileState) (now : ℚ) (qr : Option MetricSnapshot) :
    Option MetricSnapshot × FileState :=
  match read_from_cache fs now with
  | some cached => (some cached, fs)
  | none =>
    match qr with
    | some fresh => (some fresh, write_to_cache now fresh)
    | none => (none, fs)

/-- Scalar-or-composite tag of a Python dict value, for the
`isinstance(value, (int, float, str))` test of `send_all_to_zabbix`. -/
inductive PyVal where
  | pfloat (q : ℚ)
  | pint (z : ℤ)
  | pstr (s : String)
  | pother
deriving DecidableEq, Repr

/-- The `isinstance(value, (int, float, str))` test. -/
def PyVal.isScalar : PyVal → Bool
  | .pfloat _ => true
  | .pint _ => true
  | .pstr _ => true
  | .pother => false

/-- Python `str(value)` for a dict value; the exact float rendering is
abstracted by the rational's string form (no claim depends on it). -/
def showPyVal : PyVal → String
  | .pfloat q => toString q
  | .pint z => toString z
  | .pstr s => s
  | .pother => ""

/-- A metric snapshot viewed as the Python dict it is: the nine fixed entries
in dict-literal order followed by the splatted status flags. -/
def snapshotEntries (s : MetricSnapshot) : List (String × PyVal) :=
  [("input_voltage", PyVal.pfloat s.input_voltage),
   ("input_fault_voltage", PyVal.pfloat s.input_fault_voltage),
   ("output_voltage", PyVal.pfloat s.output_voltage),
   ("output_current_percent", PyVal.pint s.output_current_percent),
   ("input_frequency", PyVal.pfloat s.input_frequency),
   ("battery_voltage", PyVal.pfloat s.battery_voltage),
   ("battery_voltage_all", PyVal.pfloat s.battery_voltage_all),
   ("temperature", PyVal.pfloat s.temperature),
   ("battery_charge", PyVal.pint s.battery_charge)]
  ++ s.status_flags.map (fun nv => (nv.1, PyVal.pint nv.2))

/-- Behaviour of the `subprocess.run(["zabbix_sender", ...])` call:
`ret` is a completed process (any return code, captured stdout/stderr);
`raisesException` is a raised `Exception` — `FileNotFoundError` for a missing
`zabbix_sender` binary being one instance. -/
inductive ProcOutcome where
  | ret (returncode : ℤ) (stdout stderr : String)
  | raisesException (msg : String)
deriving DecidableEq, Repr

/-- Result of a `send_all_to_zabbix` call: printed lines, the lines written to
the temporary file, whether the temporary file still exists on return, and
whether an exception escaped the function. -/
structure SendResult where
  output : List String
  fileLines : List String
  tempFileLeft : Bool
  raised : Bool
deriving DecidableEq, Repr

/-- Translation of `send_all_to_zabbix(data, hostname, zabbix_server)`.
An empty hostname falls back to `socket.gethostname()` (modelled by `ghn`)
with a diagnostic print.  The temporary file is created and filled with one
`"<hostname> <key> <value>"` line per scalar-valued entry; the sender
subprocess then either completes (stdout printed, stderr printed too on a
non-zero return code) or raises (caught by `except Exception`, diagnostic
printed).  The `finally` block removes the temporary file when it exists.
The file-existence flag is threaded through each phase. -/
def send_all_to_zabbix (data : List (String × PyVal)) (hostname : String)
    (ghn : String) (proc : ProcOutcome) : SendResult :=
  let hn := if hostname = "" then ghn else hostname
  let notice := if hostname = "" then ["Hostname Incorrect"] else []
  let fileLines :=
    (data.filter (fun kv => kv.2.isScalar)).map
      (fun kv => hn ++ " " ++ kv.1 ++ " " ++ showPyVal kv.2)
  let tempExists := true
  let (printed, tempAfterTry, raisedInTry) :=
    match proc with
    | .ret rc out err =>
      (if rc ≠ 0 then [out, err] else [out], tempExists, false)
    | .raisesException msg =>
      (["Error sending to Zabbix: " ++ msg], tempExists, false)
  let tempAfterFinally := if tempAfterTry then false else tempAfterTry
  { output := notice ++ printed
    fileLines := fileLines
    tempFileLeft := tempAfterFinally
    raised := raisedInTry }

/-- Result of one invocation of `main()`: printed lines in order, the
resulting cache-file state, and the process exit code. -/
structure MainResult where
  output : List String
  cache : FileState
  exitCode : ℕ
deriving DecidableEq, Repr

/-- Translation of `main()` (named `mainFn` since `main` is reserved in Lean).  `args` is `sys.argv[1:]`; a wrong argument count
prints the usage line and exits 1.  Otherwise the key is printed first, then:
`update_cache` forces a fresh query (result modelled by `qr`), writes the
cache and prints `OK` on success, prints `FAILED` on failure; `send_to_zabbix`
uses the cache-or-query fallback and forwards; any other key prints the
looked-up value or `Error getting Data`. -/
def mainFn (args : List String) (fs : FileState) (now : ℚ)
    (qr : Option MetricSnapshot) (proc : ProcOutcome) (ghn : String) : MainResult :=
  match args with
  | [key] =>
    if key = "update_cache" then
      match qr with
      | some fresh =>
        { output := [key, "OK"], cache := write_to_cache now fresh, exitCode := 0 }
      | none =>
        { output := [key, "FAILED"], cache := fs, exitCode := 0 }
    else if key = "send_to_zabbix" then
      match get_ups_data fs now qr with
      | (some d, fs2) =>
        { output := key :: (send_all_to_zabbix (snapshotEntries d) ZABBIX_HOSTNAME ghn proc).output
          cache := fs2
          exitCode := 0 }
      | (none, fs2) =>
        { output := [key, "No UPS data to send."], cache := fs2, exitCode := 0 }
    else
      match get_ups_data fs now qr with
      | (some d, fs2) =>
        match (snapshotEntries d).lookup key with
        | some v => { output := [key, showPyVal v], cache := fs2, exitCode := 0 }
        | none => { output := [key, "Error getting Data"], cache := fs2, exitCode := 0 }
      | (none, fs2) =>
        { output := [key, "Error getting Data"], cache := fs2, exitCode := 0 }
  | _ => { output := ["Usage: ups_cache.py <key>"], cache := fs, exitCode := 1 }

/-- A well-formed demo reply: all seven numeric tokens parse and the status
token is the 8-character binary string `10000001`. -/
def demoReplyA : String := "(230.1 0.0 229.8 32 49.9 2.05 30.5 10000001)"

/-- The snapshot `parse_ups_response` produces for `demoReplyA`. -/
def demoSnapA : MetricSnapshot :=
  { input_voltage := 2301 / 10
    input_fault_voltage := 0
    output_voltage := 1149 / 5
    output_current_percent := 32
    input_frequency := 499 / 10
    battery_voltage := 41 / 20
    battery_voltage_all := 3973 / 20
    temperature := 61 / 2
    battery_charge := 77
    status_flags :=
      [("utility_fail", 1), ("battery_low", 0), ("boost_buck_active", 0), ("ups_failed", 0),
       ("ups_type_standby", 0), ("test_in_progress", 0), ("shutdown_active", 0), ("beeper_on", 1)] }

/-- A demo reply whose only defect is its 8th token: `1010101` has 7
characters, so it is not a valid status string.  The battery voltage `1.0`
lies below `BATTERY_LOW / battMul`. -/
def demoReplyB : String := "(230.1 0.0 229.8 32 49.9 1.0 30.5 1010101)"

/-- The snapshot `parse_ups_response` produces for `demoReplyB`: still a
snapshot, with an empty flag set and charge clamped to 0. -/
def demoSnapB : MetricSnapshot :=
  { input_voltage := 2301 / 10
    input_fault_voltage := 0
    output_voltage := 1149 / 5
    output_current_percent := 32
    input_frequency := 499 / 10
    battery_voltage := 1
    battery_voltage_all := 969 / 10
    temperature := 61 / 2
    battery_charge := 0
    status_flags := [] }

/-- A well-formed demo reply with battery voltage `2.30`, above
`BATTERY_HIGH / battMul`, and status `00000000`. -/
def demoReplyC : String := "(230.1 0.0 229.8 32 49.9 2.30 30.5 00000000)"

/-- The snapshot `parse_ups_response` produces for `demoReplyC`: charge
clamped to 100. -/
def demoSnapC : MetricSnapshot :=
  { input_voltage := 2301 / 10
    input_fault_voltage := 0
    output_voltage := 1149 / 5
    output_current_percent := 32
    input_frequency := 499 / 10
    battery_voltage := 23 / 10
    battery_voltage_all := 5572 / 25
    temperature := 61 / 2
    battery_charge := 100
    status_flags :=
      [("utility_fail", 0), ("battery_low", 0), ("boost_buck_active", 0), ("ups_failed", 0),
       ("ups_type_standby", 0), ("test_in_progress", 0), ("shutdown_active", 0), ("beeper_on", 0)] }

theorem demoA_parse : parse_ups_response demoReplyA = some demoSnapA := by decide!

theorem demoB_parse : parse_ups_response demoReplyB = some demoSnapB := by decide!

theorem demoC_parse : parse_ups_response demoReplyC = some demoSnapC := by decide!

/-- Claim C5: writing a snapshot and reading strictly within the 120-second
TTL returns the identical snapshot; reading once at least 121 seconds have
elapsed returns null. -/
theorem claim_C5_cache_roundtrip (v : MetricSnapshot) (tw tr : ℚ) :
    (tr - tw < CACHE_TTL → read_from_cache (write_to_cache tw v) tr = some v) ∧
    (121 ≤ tr - tw → read_from_cache (write_to_cache tw v) tr = none) := by
  constructor
  · intro h
    simp [read_from_cache, write_to_cache, h]
  · intro h
    have hlt : ¬ (tr - tw < CACHE_TTL) := by
      rw [CACHE_TTL]
      linarith
    simp [read_from_cache, write_to_cache, hlt]

/-- Witness for C5 at concrete times: a read 60 seconds after the write
returns the snapshot, a read 121 seconds after returns null. -/
theorem claim_C5_witness :
    ((60 : ℚ) - 0 < CACHE_TTL ∧
      read_from_cache (write_to_cache 0 demoSnapA) 60 = some demoSnapA) ∧
    ((121 : ℚ) ≤ 121 - 0 ∧
      read_from_cache (write_to_cache 0 demoSnapA) 121 = none) :=
  ⟨⟨by norm_num [CACHE_TTL], (claim_C5_cache_roundtrip demoSnapA 0 60).1 (by norm_num [CACHE_TTL])⟩,
   ⟨by norm_num, (claim_C5_cache_roundtrip demoSnapA 0 121).2 (by norm_num)⟩⟩

/-- Claim C6: `read_from_cache` returns null exactly when the backing file is
absent, unreadable or malformed, or the stored timestamp is at least the
120-second TTL old relative to the current time; every such failure is
silent and indistinguishable from the no-cache case (the same `none`). -/
theorem claim_C6_read_none_iff (fs : FileState) (now : ℚ) :
    read_from_cache fs now = none ↔
      fs = FileState.absent ∨ fs = FileState.unreadable ∨ fs = FileState.malformed ∨
      ∃ ts v, fs = FileState.entry ts v ∧ CACHE_TTL ≤ now - ts := by
  cases fs with
  | absent => simp [read_from_cache]
  | unreadable => simp [read_from_cache]
  | malformed => simp [read_from_cache]
  | entry ts v =>
    simp only [read_from_cache]
    constructor
    · intro h
      refine Or.inr (Or.inr (Or.inr ⟨ts, v, rfl, ?_⟩))
      by_contra hc
      rw [if_pos (by linarith [lt_of_not_le hc])] at h
      exact Option.noConfusion h
    · rintro (h | h | h | ⟨ts2, v2, heq, hage⟩) <;> try exact absurd h (by simp)
      obtain ⟨rfl, rfl⟩ : ts = ts2 ∧ v = v2 := by
        injection heq with h1 h2
        exact ⟨h1, h2⟩
      rw [if_neg (not_lt.mpr hage)]

/-- Claim C7: the `update_cache` command forces a fresh query regardless of
the cache state; on success it writes the cache and prints the literal `OK`
line, on failure it prints the literal `FAILED` line and leaves the cache
unchanged. -/
theorem claim_C7_update_cache (fs : FileState) (now : ℚ) (qr : Option MetricSnapshot)
    (proc : ProcOutcome) (ghn : String) :
    (∀ v, qr = some v →
      mainFn ["update_cache"] fs now qr proc ghn =
        { output := ["update_cache", "OK"], cache := write_to_cache now v, exitCode := 0 }) ∧
    (qr = none →
      mainFn ["update_cache"] fs now qr proc ghn =
        { output := ["update_cache", "FAILED"], cache := fs, exitCode := 0 }) := by
  constructor
  · rintro v rfl
    rfl
  · rintro rfl
    rfl

/-- Witness for C7: with a prior cache entry in place, a failing query prints
`FAILED` and leaves that entry untouched, and a succeeding query prints `OK`
and overwrites it. -/
theorem claim_C7_witness :
    mainFn ["update_cache"] (FileState.entry 5 demoSnapA) 300 none (ProcOutcome.ret 0 "" "")
        "host" =
      { output := ["update_cache", "FAILED"], cache := FileState.entry 5 demoSnapA,
        exitCode := 0 } ∧
    mainFn ["update_cache"] (FileState.entry 5 demoSnapA) 300 (some demoSnapB)
        (ProcOutcome.ret 0 "" "") "host" =
      { output := ["update_cache", "OK"], cache := write_to_cache 300 demoSnapB,
        exitCode := 0 } :=
  ⟨(claim_C7_update_cache (FileState.entry 5 demoSnapA) 300 none (ProcOutcome.ret 0 "" "")
      "host").2 rfl,
   (claim_C7_update_cache (FileState.entry 5 demoSnapA) 300 (some demoSnapB)
      (ProcOutcome.ret 0 "" "") "host").1 demoSnapB rfl⟩

/-- Claim C8: for every snapshot dict and every modelled behaviour of the
sender process (success, non-zero exit, or a raised exception such as a
missing binary), `send_all_to_zabbix` leaves no temporary file behind and
lets no exception escape. -/
theorem claim_C8_temp_file_cleanup (data : List (String × PyVal)) (hostname ghn : String)
    (proc : ProcOutcome) :
    (send_all_to_zabbix data hostname ghn proc).tempFileLeft = false ∧
    (send_all_to_zabbix data hostname ghn proc).raised = false := by
  cases proc <;> simp [send_all_to_zabbix]

/-- Claim C10: for every single-argument invocation, the first printed line is
the argument itself, whatever the cache state, query result and sender
behaviour. -/
theorem claim_C10_echoes_key (key : String) (fs : FileState) (now : ℚ)
    (qr : Option MetricSnapshot) (proc : ProcOutcome) (ghn : String) :
    (mainFn [key] fs now qr proc ghn).output.head? = some key := by
  unfold mainFn
  by_cases h1 : key = "update_cache"
  · cases qr <;> simp [h1]
  · by_cases h2 : key = "send_to_zabbix"
    · rcases hget : get_ups_data fs now qr with ⟨d, fs2⟩
      cases d <;> simp [h1, h2, hget]
    · rcases hget : get_ups_data fs now qr with ⟨d, fs2⟩
      cases d with
      | none => simp [h1, h2, hget]
      | some s =>
        rcases hlook : (snapshotEntries s).lookup key with _ | v <;>
          simp [h1, h2, hget, hlook]

theorem list_len8 {α : Type} {l : List α} :
    l.length = 8 ↔ ∃ a b c d e f g h, l = [a, b, c, d, e, f, g, h] := by
  constructor
  · intro hl
    rcases l with _ | ⟨a, _ | ⟨b, _ | ⟨c, _ | ⟨d, _ | ⟨e, _ | ⟨f, _ | ⟨g, _ | ⟨h, _ | ⟨i, t⟩⟩⟩⟩⟩⟩⟩⟩⟩ <;>
      first
        | (exact ⟨a, b, c, d, e, f, g, h, rfl⟩)
        | simp_all
  · rintro ⟨a, b, c, d, e, f, g, h, rfl⟩
    rfl

/-- Inversion for a successful parse: the snapshot's derived fields are the
source's expressions over its parsed battery voltage, and its flag list is
`parse_status_bits` of the 8th token. -/
theorem parse_some_spec {r : String} {s : MetricSnapshot} (h : parse_ups_response r = some s) :
    s.battery_voltage_all = round2 (s.battery_voltage * battMul) ∧
    s.battery_charge = battery_charge_of s.battery_voltage ∧
    ∀ p0 p1 p2 p3 p4 p5 p6 p7,
      pySplit (stripChars r parenStripSet) = [p0, p1, p2, p3, p4, p5, p6, p7] →
      s.status_flags = parse_status_bits p7 := by
  unfold parse_ups_response at h
  split at h
  · split at h
    · split at h
      · injection h with h
        subst h
        refine ⟨rfl, rfl, ?_⟩
        intro p0 p1 p2 p3 p4 p5 p6 p7 hL
        simp_all
      · exact Option.noConfusion h
    · exact Option.noConfusion h
  · exact Option.noConfusion h

theorem pyTrunc_of_nonneg {q : ℚ} (h : 0 ≤ q) : pyTrunc q = ⌊q⌋ := if_pos h

/-- The clamped value fed to `int(...)` in the charge computation is
nonnegative, so the truncation is a floor. -/
theorem battery_charge_of_eq_floor (bv : ℚ) :
    battery_charge_of bv =
      ⌊max 0 (min 100 ((bv * battMul - BATTERY_LOW) / (BATTERY_HIGH - BATTERY_LOW) * 100))⌋ :=
  pyTrunc_of_nonneg (le_max_left _ _)

theorem battHL_pos : (0 : ℚ) < BATTERY_HIGH - BATTERY_LOW := by
  norm_num [BATTERY_HIGH, BATTERY_LOW]

theorem battMul_pos : (0 : ℚ) < battMul := by
  norm_num [battMul]

theorem battery_charge_of_mono {a b : ℚ} (hab : a ≤ b) :
    battery_charge_of a ≤ battery_charge_of b := by
  rw [battery_charge_of_eq_floor, battery_charge_of_eq_floor]
  apply Int.floor_le_floor
  apply max_le_max le_rfl
  apply min_le_min le_rfl
  have h1 : a * battMul - BATTERY_LOW ≤ b * battMul - BATTERY_LOW :=
    sub_le_sub_right (mul_le_mul_of_nonneg_right hab battMul_pos.le) _
  exact mul_le_mul_of_nonneg_right ((div_le_div_iff_of_pos_right battHL_pos).mpr h1) (by norm_num)

theorem battery_charge_of_nonneg (bv : ℚ) : 0 ≤ battery_charge_of bv := by
  rw [battery_charge_of_eq_floor]
  exact Int.le_floor.mpr (by exact_mod_cast le_max_left _ _)

theorem battery_charge_of_le_100 (bv : ℚ) : battery_charge_of bv ≤ 100 := by
  rw [battery_charge_of_eq_floor]
  have h : max 0 (min 100 ((bv * battMul - BATTERY_LOW) / (BATTERY_HIGH - BATTERY_LOW) * 100))
      ≤ (100 : ℚ) :=
    max_le (by norm_num) (min_le_left _ _)
  calc ⌊max 0 (min 100 ((bv * battMul - BATTERY_LOW) / (BATTERY_HIGH - BATTERY_LOW) * 100))⌋
      ≤ ⌊(100 : ℚ)⌋ := Int.floor_le_floor h
    _ = 100 := by norm_num

theorem battery_charge_of_low {bv : ℚ} (h : bv ≤ BATTERY_LOW / battMul) :
    battery_charge_of bv = 0 := by
  rw [battery_charge_of_eq_floor]
  have h1 : bv * battMul ≤ BATTERY_LOW := (le_div_iff₀ battMul_pos).mp h
  have h2 : (bv * battMul - BATTERY_LOW) / (BATTERY_HIGH - BATTERY_LOW) * 100 ≤ 0 := by
    apply mul_nonpos_of_nonpos_of_nonneg
    · exact div_nonpos_of_nonpos_of_nonneg (by linarith) battHL_pos.le
    · norm_num
  have h3 : min 100 ((bv * battMul - BATTERY_LOW) / (BATTERY_HIGH - BATTERY_LOW) * 100) ≤ 0 :=
    le_trans (min_le_right _ _) h2
  rw [max_eq_left h3]
  norm_num

theorem battery_charge_of_high {bv : ℚ} (h : BATTERY_HIGH / battMul ≤ bv) :
    battery_charge_of bv = 100 := by
  rw [battery_charge_of_eq_floor]
  have h1 : BATTERY_HIGH ≤ bv * battMul := (div_le_iff₀ battMul_pos).mp h
  have h2 : (100 : ℚ) ≤ (bv * battMul - BATTERY_LOW) / (BATTERY_HIGH - BATTERY_LOW) * 100 := by
    have hr : (1 : ℚ) ≤ (bv * battMul - BATTERY_LOW) / (BATTERY_HIGH - BATTERY_LOW) :=
      (le_div_iff₀ battHL_pos).mpr (by linarith)
    linarith
  rw [min_eq_left h2, max_eq_right (by norm_num : (0 : ℚ) ≤ 100)]
  norm_num

/-- Claim C3: in every parsed snapshot the display field `battery_voltage_all`
is the per-cell voltage times 96.90265487 rounded to 2 decimals, while
`battery_charge` is computed from the unrounded product as the clamped linear
interpolation between `BATTERY_LOW = 166.40` and `BATTERY_HIGH = 208.00`,
floored to an integer. -/
theorem claim_C3_battery_fields (r : String) (s : MetricSnapshot)
    (h : parse_ups_response r = some s) :
    s.battery_voltage_all = round2 (s.battery_voltage * battMul) ∧
    s.battery_charge =
      ⌊max 0 (min 100 ((s.battery_voltage * battMul - BATTERY_LOW) /
        (BATTERY_HIGH - BATTERY_LOW) * 100))⌋ ∧
    battMul = 9690265487 / 100000000 ∧ BATTERY_LOW = 1664 / 10 ∧ BATTERY_HIGH = 208 := by
  obtain ⟨h1, h2, _⟩ := parse_some_spec h
  exact ⟨h1, by rw [h2, battery_charge_of_eq_floor], rfl, rfl, rfl⟩

/-- Witness for C3 on a concrete reply. -/
theorem claim_C3_witness :
    parse_ups_response demoReplyA = some demoSnapA ∧
    demoSnapA.battery_voltage_all = round2 (demoSnapA.battery_voltage * battMul) ∧
    demoSnapA.battery_charge =
      ⌊max 0 (min 100 ((demoSnapA.battery_voltage * battMul - BATTERY_LOW) /
        (BATTERY_HIGH - BATTERY_LOW) * 100))⌋ :=
  ⟨demoA_parse,
   (claim_C3_battery_fields demoReplyA demoSnapA demoA_parse).1,
   (claim_C3_battery_fields demoReplyA demoSnapA demoA_parse).2.1⟩

/-- Claim C4: across parsed snapshots the battery charge is monotone
non-decreasing in the battery voltage, always lies in [0, 100], is 0 at or
below `BATTERY_LOW / battMul` and 100 at or above `BATTERY_HIGH / battMul`. -/
theorem claim_C4_charge_monotone :
    (∀ r1 r2 s1 s2, parse_ups_response r1 = some s1 → parse_ups_response r2 = some s2 →
      s1.battery_voltage ≤ s2.battery_voltage → s1.battery_charge ≤ s2.battery_charge) ∧
    (∀ r s, parse_ups_response r = some s → 0 ≤ s.battery_charge ∧ s.battery_charge ≤ 100) ∧
    (∀ r s, parse_ups_response r = some s → s.battery_voltage ≤ BATTERY_LOW / battMul →
      s.battery_charge = 0) ∧
    (∀ r s, parse_ups_response r = some s → BATTERY_HIGH / battMul ≤ s.battery_voltage →
      s.battery_charge = 100) := by
  refine ⟨?_, ?_, ?_, ?_⟩
  · intro r1 r2 s1 s2 h1 h2 hv
    rw [(parse_some_spec h1).2.1, (parse_some_spec h2).2.1]
    exact battery_charge_of_mono hv
  · intro r s h
    rw [(parse_some_spec h).2.1]
    exact ⟨battery_charge_of_nonneg _, battery_charge_of_le_100 _⟩
  · intro r s h hlow
    rw [(parse_some_spec h).2.1]
    exact battery_charge_of_low hlow
  · intro r s h hhigh
    rw [(parse_some_spec h).2.1]
    exact battery_charge_of_high hhigh

/-- Witness for C4 at concrete replies: voltage 1.0 ≤ 2.30 gives charge
0 ≤ 100, voltage 1.0 is below the low threshold giving 0, voltage 2.30 is
above the high threshold giving 100, and the charge of `demoSnapA` lies in
range. -/
theorem claim_C4_witness :
    (demoSnapB.battery_voltage ≤ demoSnapC.battery_voltage ∧
      demoSnapB.battery_charge ≤ demoSnapC.battery_charge) ∧
    (0 ≤ demoSnapA.battery_charge ∧ demoSnapA.battery_charge ≤ 100) ∧
    (demoSnapB.battery_voltage ≤ BATTERY_LOW / battMul ∧ demoSnapB.battery_charge = 0) ∧
    (BATTERY_HIGH / battMul ≤ demoSnapC.battery_voltage ∧ demoSnapC.battery_charge = 100) :=
  ⟨⟨by norm_num [demoSnapB, demoSnapC],
    claim_C4_charge_monotone.1 demoReplyB demoReplyC demoSnapB demoSnapC demoB_parse demoC_parse
      (by norm_num [demoSnapB, demoSnapC])⟩,
   claim_C4_charge_monotone.2.1 demoReplyA demoSnapA demoA_parse,
   ⟨by rw [BATTERY_LOW, battMul]; norm_num [demoSnapB],
    claim_C4_charge_monotone.2.2.1 demoReplyB demoSnapB demoB_parse
      (by rw [BATTERY_LOW, battMul]; norm_num [demoSnapB])⟩,
   ⟨by rw [BATTERY_HIGH, battMul]; norm_num [demoSnapC],
    claim_C4_charge_monotone.2.2.2 demoReplyC demoSnapC demoC_parse
      (by rw [BATTERY_HIGH, battMul]; norm_num [demoSnapC])⟩⟩

/-- Characterisation of the failure cases of `parse_ups_response`, shared by
the claims below. -/
theorem parse_none_iff_aux (response : String) :
    parse_ups_response response = none ↔
      startsWithParen response = false ∨
      (pySplit (stripChars response parenStripSet)).length ≠ 8 ∨
      ∃ p0 p1 p2 p3 p4 p5 p6 p7,
        pySplit (stripChars response parenStripSet) = [p0, p1, p2, p3, p4, p5, p6, p7] ∧
        (pyFloat p0 = none ∨ pyFloat p1 = none ∨ pyFloat p2 = none ∨ pyInt p3 = none ∨
         pyFloat p4 = none ∨ pyFloat p5 = none ∨ pyFloat p6 = none) := by
  cases hsw : startsWithParen response with
  | false => simp [parse_ups_response, hsw]
  | true =>
    rcases hL : pySplit (stripChars response parenStripSet) with
        _ | ⟨p0, _ | ⟨p1, _ | ⟨p2, _ | ⟨p3, _ | ⟨p4, _ | ⟨p5, _ | ⟨p6, _ | ⟨p7, _ | ⟨p8, t⟩⟩⟩⟩⟩⟩⟩⟩⟩ <;>
      simp only [parse_ups_response, hsw, hL, if_true] <;> try simp <;> try omega
    cases h0 : pyFloat p0 with
    | none =>
      simp [h0]
      refine ⟨p0, p1, p2, p3, p4, p5, p6, ⟨rfl, rfl, rfl, rfl, rfl, rfl, rfl⟩, ?_⟩
      simp [h0]
    | some iv =>
      cases h1 : pyFloat p1 with
      | none =>
        simp [h0, h1]
        refine ⟨p0, p1, p2, p3, p4, p5, p6, ⟨rfl, rfl, rfl, rfl, rfl, rfl, rfl⟩, ?_⟩
        simp [h1]
      | some ifv =>
        cases h2 : pyFloat p2 with
        | none =>
          simp [h0, h1, h2]
          refine ⟨p0, p1, p2, p3, p4, p5, p6, ⟨rfl, rfl, rfl, rfl, rfl, rfl, rfl⟩, ?_⟩
          simp [h2]
        | some ov =>
          cases h3 : pyInt p3 with
          | none =>
            simp [h0, h1, h2, h3]
            refine ⟨p0, p1, p2, p3, p4, p5, p6, ⟨rfl, rfl, rfl, rfl, rfl, rfl, rfl⟩, ?_⟩
            simp [h3]
          | some oc =>
            cases h4 : pyFloat p4 with
            | none =>
              simp [h0, h1, h2, h3, h4]
              refine ⟨p0, p1, p2, p3, p4, p5, p6, ⟨rfl, rfl, rfl, rfl, rfl, rfl, rfl⟩, ?_⟩
              simp [h4]
            | some ifr =>
              cases h5 : pyFloat p5 with
              | none =>
                simp [h0, h1, h2, h3, h4, h5]
                refine ⟨p0, p1, p2, p3, p4, p5, p6, ⟨rfl, rfl, rfl, rfl, rfl, rfl, rfl⟩, ?_⟩
                simp [h5]
              | some bv =>
                cases h6 : pyFloat p6 with
                | none =>
                  simp [h0, h1, h2, h3, h4, h5, h6]
                  refine ⟨p0, p1, p2, p3, p4, p5, p6, ⟨rfl, rfl, rfl, rfl, rfl, rfl, rfl⟩, ?_⟩
                  simp [h6]
                | some temp =>
                  simp [h0, h1, h2, h3, h4, h5, h6]
                  rintro x0 x1 x2 x3 x4 x5 x6 rfl rfl rfl rfl rfl rfl rfl
                  simp [h0, h1, h2, h3, h4, h5, h6]

/-- Claim C1: `parse_ups_response` returns null exactly when the line does not
start with `(`, or stripping `()\r\n` and splitting on whitespace does not
give exactly 8 tokens, or one of the first seven tokens fails its numeric
conversion (`float` for the voltages, frequency and temperature, `int` for
the load percent); otherwise it returns a snapshot.  Totality of the Lean
function reflects that no exception propagates. -/
theorem claim_C1_parse_none_iff (response : String) :
    parse_ups_response response = none ↔
      startsWithParen response = false ∨
      (pySplit (stripChars response parenStripSet)).length ≠ 8 ∨
      ∃ p0 p1 p2 p3 p4 p5 p6 p7,
        pySplit (stripChars response parenStripSet) = [p0, p1, p2, p3, p4, p5, p6, p7] ∧
        (pyFloat p0 = none ∨ pyFloat p1 = none ∨ pyFloat p2 = none ∨ pyInt p3 = none ∨
         pyFloat p4 = none ∨ pyFloat p5 = none ∨ pyFloat p6 = none) :=
  parse_none_iff_aux response

/-- Claim C2: the status string is indexed from the end (bit `pos` of the
table is the character `pos` places from the last), `10000001` yields
`utility_fail = 1`, `beeper_on = 1` and all other flags 0, and a token that
is not exactly 8 characters of `0`/`1` yields an empty flag set — the parsed
snapshot is still produced but lacks all 8 flag keys (its flag list is
empty). -/
theorem claim_C2_status_bits :
    parse_status_bits "10000001" =
      [("utility_fail", 1), ("battery_low", 0), ("boost_buck_active", 0), ("ups_failed", 0),
       ("ups_type_standby", 0), ("test_in_progress", 0), ("shutdown_active", 0),
       ("beeper_on", 1)] ∧
    (∀ bits : String, validStatusToken bits = true →
      parse_status_bits bits =
        STATUS_FLAGS.map (fun np => (np.1, charDigit (bits.toList.reverse.getD np.2 '0')))) ∧
    (∀ bits : String, validStatusToken bits = false → parse_status_bits bits = []) ∧
    (∀ response s, parse_ups_response response = some s →
      ∀ p0 p1 p2 p3 p4 p5 p6 p7,
        pySplit (stripChars response parenStripSet) = [p0, p1, p2, p3, p4, p5, p6, p7] →
        validStatusToken p7 = false → s.status_flags = []) := by
  refine ⟨by decide, ?_, ?_, ?_⟩
  · intro bits hval
    have hlen : bits.toList.length = 8 := by
      have h8 : bits.length = 8 := by
        have hb := ((Bool.and_eq_true _ _).mp hval).1
        simpa using hb
      show bits.data.length = 8
      rw [String.length_data]
      exact h8
    obtain ⟨a, b, c, d, e, f, g, h, hcs⟩ := list_len8.mp hlen
    unfold parse_status_bits
    rw [if_pos hval, hcs]
    simp [STATUS_FLAGS, List.getD]
  · intro bits hval
    simp [parse_status_bits, hval]
  · intro response s h p0 p1 p2 p3 p4 p5 p6 p7 hL hval
    rw [(parse_some_spec h).2.2 p0 p1 p2 p3 p4 p5 p6 p7 hL]
    simp [parse_status_bits, hval]

/-- Witness for C2: the from-the-end indexing at `01000010`, the empty flag
set at the 7-character token `1234567`, and the reply `demoReplyB` whose
snapshot is returned with an empty flag list. -/
theorem claim_C2_witness :
    (validStatusToken "01000010" = true ∧
      parse_status_bits "01000010" =
        STATUS_FLAGS.map
          (fun np => (np.1, charDigit ("01000010".toList.reverse.getD np.2 '0')))) ∧
    (validStatusToken "1234567" = false ∧ parse_status_bits "1234567" = []) ∧
    (parse_ups_response demoReplyB = some demoSnapB ∧
      pySplit (stripChars demoReplyB parenStripSet) =
        ["230.1", "0.0", "229.8", "32", "49.9", "1.0", "30.5", "1010101"] ∧
      validStatusToken "1010101" = false ∧ demoSnapB.status_flags = []) :=
  ⟨⟨by decide, claim_C2_status_bits.2.1 "01000010" (by decide)⟩,
   ⟨by decide, claim_C2_status_bits.2.2.1 "1234567" (by decide)⟩,
   ⟨demoB_parse, by decide, by decide,
    claim_C2_status_bits.2.2.2 demoReplyB demoSnapB demoB_parse
      "230.1" "0.0" "229.8" "32" "49.9" "1.0" "30.5" "1010101" (by decide) (by decide)⟩⟩

/-- Counterexample to C9 as stated: `demoReplyB`'s only defect is its 8th
token `1010101` (7 characters, not a valid 8-character binary status string),
yet `parse_ups_response` does not return null — it returns the snapshot
`demoSnapB` (whose flag list is empty). -/
theorem claim_C9_counterexample :
    validStatusToken "1010101" = false ∧
    pySplit (stripChars demoReplyB parenStripSet) =
      ["230.1", "0.0", "229.8", "32", "49.9", "1.0", "30.5", "1010101"] ∧
    parse_ups_response demoReplyB ≠ none ∧
    parse_ups_response demoReplyB = some demoSnapB :=
  ⟨by decide, by decide, fun hc => by rw [demoB_parse] at hc; exact Option.noConfusion hc,
   demoB_parse⟩

/-- Amended C9: a wrong field count or a failing numeric conversion yields
null without raising, but a reply whose only defect is a status token that is
not an 8-character binary string is not rejected — the parser returns a
snapshot whose flag list is empty (the 8 flag keys are absent). -/
theorem claim_C9_amended :
    (∀ response, (pySplit (stripChars response parenStripSet)).length ≠ 8 →
      parse_ups_response response = none) ∧
    (∀ response p0 p1 p2 p3 p4 p5 p6 p7,
      pySplit (stripChars response parenStripSet) = [p0, p1, p2, p3, p4, p5, p6, p7] →
      (pyFloat p0 = none ∨ pyFloat p1 = none ∨ pyFloat p2 = none ∨ pyInt p3 = none ∨
       pyFloat p4 = none ∨ pyFloat p5 = none ∨ pyFloat p6 = none) →
      parse_ups_response response = none) ∧
    (∀ response s, parse_ups_response response = some s →
      ∀ p0 p1 p2 p3 p4 p5 p6 p7,
        pySplit (stripChars response parenStripSet) = [p0, p1, p2, p3, p4, p5, p6, p7] →
        validStatusToken p7 = false → s.status_flags = []) := by
  refine ⟨?_, ?_, ?_⟩
  · intro response hlen
    exact (parse_none_iff_aux response).mpr (Or.inr (Or.inl hlen))
  · intro response p0 p1 p2 p3 p4 p5 p6 p7 hL hfail
    exact (parse_none_iff_aux response).mpr
      (Or.inr (Or.inr ⟨p0, p1, p2, p3, p4, p5, p6, p7, hL, hfail⟩))
  · intro response s h p0 p1 p2 p3 p4 p5 p6 p7 hL hval
    rw [(parse_some_spec h).2.2 p0 p1 p2 p3 p4 p5 p6 p7 hL]
    simp [parse_status_bits, hval]

/-- Witness for the amended C9: a 2-field reply is rejected, a reply with a
non-numeric first token is rejected, and `demoReplyB` with its short status
token still parses to a flagless snapshot. -/
theorem claim_C9_witness :
    ((pySplit (stripChars "(1 2)" parenStripSet)).length ≠ 8 ∧
      parse_ups_response "(1 2)" = none) ∧
    (pySplit (stripChars "(x 0.0 229.8 32 49.9 1.0 30.5 10000001)" parenStripSet) =
        ["x", "0.0", "229.8", "32", "49.9", "1.0", "30.5", "10000001"] ∧
      pyFloat "x" = none ∧
      parse_ups_response "(x 0.0 229.8 32 49.9 1.0 30.5 10000001)" = none) ∧
    (parse_ups_response demoReplyB = some demoSnapB ∧
      validStatusToken "1010101" = false ∧ demoSnapB.status_flags = []) :=
  ⟨⟨by decide, claim_C9_amended.1 "(1 2)" (by decide)⟩,
   ⟨by decide, by decide,
    claim_C9_amended.2.1 "(x 0.0 229.8 32 49.9 1.0 30.5 10000001)"
      "x" "0.0" "229.8" "32" "49.9" "1.0" "30.5" "10000001" (by decide)
      (Or.inl (by decide))⟩,
   ⟨demoB_parse,
    by decide,
    claim_C9_amended.2.2 demoReplyB demoSnapB demoB_parse
      "230.1" "0.0" "229.8" "32" "49.9" "1.0" "30.5" "1010101" (by decide) (by decide)⟩⟩
